import Mathlib

/-!
Verification development for the `plugin_tls` crate (src/lib.rs).

The crate provides thread-local and lazily-initialized static values that can
be shared across dynamic-library boundaries.  The host image owns two
registries mapping identifier strings to opaque heap boxes (`RBox<()>`):

* a per-thread `BTreeMap` behind a `RefCell` (`PLUGIN_TLS`), accessed by
  `host::tls`;
* a process-wide `BTreeMap` behind a `Mutex` that is lazily created through a
  `Once` (`PLUGIN_STATIC`), accessed by `host::statics` via `static_map()`,
  which calls `.lock().unwrap()`.

This file is a shallow embedding of that code:

* `Box` models an `RBox<()>`: a heap allocation with an address (`addr`) and
  an opaque payload (`val`).  Fresh allocations receive fresh addresses from a
  monotone allocator counter carried in the registry state.
* A registry map is an association list keyed by the identifier string;
  `BTreeMap` key order is irrelevant to every claim, and lookup compares keys
  purely by string content just as `BTreeMap<RStr, _>` does.
* An initializer (`extern "C" fn() -> RBox<()>`) either returns a value or
  panics; `InitResult` records which.  A Rust panic is modelled as the
  `Except.error` branch carrying the panic message.
* `TlsState.borrowed` models whether the `RefCell` of `PLUGIN_TLS` is
  currently mutably borrowed by an in-progress accessor call on this thread:
  `RefCell::borrow_mut` panics when it is (`already mutably borrowed`).
* `StaticState.poisoned` models `Mutex` poisoning: a panic raised while the
  `MutexGuard` is held (which is the case for the whole body of
  `host::statics`, including the `init()` call) poisons the mutex, after
  which `static_map()`'s `.lock().unwrap()` panics.
-/

namespace PluginTls

/-- Model of an `RBox<()>`: the address of the heap allocation together with
the (opaque) payload stored inside it. -/
structure Box where
  addr : Nat
  val : Nat
deriving DecidableEq, Repr

/-- What a zero-argument initializer (`extern "C" fn() -> RBox<()>`) does when
invoked: return a payload, or panic with a message. -/
inductive InitResult where
  | ok (v : Nat)
  | fail (msg : String)
deriving DecidableEq, Repr

/-- A registry map: association list from identifier string to stored box,
modelling `BTreeMap<RStr<'static>, RBox<()>>` (key order is irrelevant to the
claims; keys are compared by string content). -/
abbrev RegMap := List (String × Box)

/-- Lookup in a registry map by string equality of the key, modelling
`BTreeMap::get` / `contains_key` on `RStr` keys. -/
def lookupBox : RegMap → String → Option Box
  | [], _ => none
  | (k, b) :: rest, id => if k = id then some b else lookupBox rest id

/-- State of the calling thread's thread-local registry `PLUGIN_TLS`:
the map, the allocator counter handing out fresh box addresses, and whether
the `RefCell` is currently mutably borrowed by an enclosing accessor call. -/
structure TlsState where
  map : RegMap
  nextAddr : Nat
  borrowed : Bool
deriving DecidableEq, Repr

/-- State of the process-wide static registry `PLUGIN_STATIC`: the map, the
allocator counter, and whether the protecting `Mutex` has been poisoned by a
panic raised while its guard was held. -/
structure StaticState where
  map : RegMap
  nextAddr : Nat
  poisoned : Bool
deriving DecidableEq, Repr

/-- Initial (empty) thread-local registry state. -/
def TlsState.empty : TlsState := ⟨[], 0, false⟩

/-- Initial (empty) static registry state. -/
def StaticState.empty : StaticState := ⟨[], 0, false⟩

/-- Panic message of `RefCell::borrow_mut` on an already-borrowed cell. -/
def borrowPanic : String := "already mutably borrowed"

/-- Panic message of `.lock().unwrap()` on a poisoned mutex. -/
def poisonPanic : String := "poisoned lock"

/-- Model of `host::tls` (src/lib.rs lines 137-154):

    PLUGIN_TLS.with(|m| {
        let mut m = m.borrow_mut();
        if !m.contains_key(id) { m.insert(id.clone(), init()); }
        m.get(id).unwrap().as_ref() as *const ()
    })

`borrow_mut` panics if the cell is already borrowed (a reentrant call from an
initializer).  Otherwise, if the key is absent the initializer runs: a panic
inside it propagates (unwinding drops the `RefMut`, so the map is unchanged
and the borrow released); on success a fresh box is inserted.  The returned
`Bool` records whether the initializer was invoked and completed.  The result
address is the address of the stored box. -/
def tls (s : TlsState) (id : String) (init : InitResult) :
    Except String (Nat × Bool) × TlsState :=
  if s.borrowed then (.error borrowPanic, s)
  else
    match lookupBox s.map id with
    | some b => (.ok (b.addr, false), s)
    | none =>
      match init with
      | .fail msg => (.error msg, s)
      | .ok v =>
        (.ok (s.nextAddr, true),
         { s with map := (id, ⟨s.nextAddr, v⟩) :: s.map, nextAddr := s.nextAddr + 1 })

/-- Model of `host::statics` (src/lib.rs lines 156-170):

    let mut m = static_map();
    if !m.contains_key(id) { m.insert(id.clone(), init()); }
    m.get(id).unwrap().as_ref() as *const ()

`static_map()` is `.lock().unwrap()`, which panics if the mutex is poisoned.
The mutex guard is held for the whole body, so a panic inside `init()` unwinds
with the guard held and poisons the mutex (standard `std::sync::Mutex`
semantics); the map itself is left unchanged. -/
def statics (s : StaticState) (id : String) (init : InitResult) :
    Except String (Nat × Bool) × StaticState :=
  if s.poisoned then (.error poisonPanic, s)
  else
    match lookupBox s.map id with
    | some b => (.ok (b.addr, false), s)
    | none =>
      match init with
      | .fail msg => (.error msg, { s with poisoned := true })
      | .ok v =>
        (.ok (s.nextAddr, true),
         { s with map := (id, ⟨s.nextAddr, v⟩) :: s.map, nextAddr := s.nextAddr + 1 })

/-- Model of `host::reset` (src/lib.rs lines 172-175):

    PLUGIN_TLS.with(|m| m.borrow_mut().clear());
    static_map().clear();

The thread-local map is cleared first; then `static_map()` is taken (panicking
if the mutex is poisoned) and cleared.  Allocator counters are unaffected, so
re-initialization after a reset may hand out different addresses. -/
def reset (ts : TlsState) (ss : StaticState) :
    Except String Unit × TlsState × StaticState :=
  if ts.borrowed then (.error borrowPanic, ts, ss)
  else if ss.poisoned then (.error poisonPanic, { ts with map := [] }, ss)
  else (.ok (), { ts with map := [] }, { ss with map := [] })

/-- Run a sequence of `tls` accessor calls, keeping only the final registry
state (a panic propagates to that call's caller; the registry persists). -/
def runTls (s : TlsState) : List (String × InitResult) → TlsState
  | [] => s
  | c :: cs => runTls (tls s c.1 c.2).2 cs

/-- Run a sequence of `statics` accessor calls, keeping only the final
registry state. -/
def runStatics (s : StaticState) : List (String × InitResult) → StaticState
  | [] => s
  | c :: cs => runStatics (statics s c.1 c.2).2 cs

/-- Run a sequence of `statics` accessor calls, collecting every call's
result together with the final registry state.  Because the whole body of
`host::statics` executes while holding the process-wide mutex, any concurrent
execution of such calls is equivalent to running them atomically in the order
in which the threads acquired the mutex, which is what this function does. -/
def runStaticsTrace : StaticState → List (String × InitResult) →
    List (Except String (Nat × Bool)) × StaticState
  | s, [] => ([], s)
  | s, c :: cs =>
    ((statics s c.1 c.2).1 :: (runStaticsTrace (statics s c.1 c.2).2 cs).1,
     (runStaticsTrace (statics s c.1 c.2).2 cs).2)

/-- Identifier built by the `__thread_local_inner!` macro (src/lib.rs line 42):
`concat!(stringify!($name), stringify!($t), module_path!())`. -/
def tlsIdentifier (name ty modPath : String) : String :=
  name ++ ty ++ modPath

/-- Identifier built by the `__lazy_static_inner!` macro (src/lib.rs line
101): `concat!(stringify!($N), stringify!($T), module_path!())`. -/
def staticIdentifier (name ty modPath : String) : String :=
  name ++ ty ++ modPath

/-- Type of an installed accessor slot entry for the thread-local registry
(the function pointer type `AccessFunction`, src/lib.rs lines 178-179). -/
abbrev TlsAccessor :=
  TlsState → String → InitResult → Except String (Nat × Bool) × TlsState

/-- Type of an installed accessor slot entry for the static registry. -/
abbrev StaticAccessor :=
  StaticState → String → InitResult → Except String (Nat × Bool) × StaticState

/-- The `HOST_TLS` slot in a non-host image before `Context::initialize`
(src/lib.rs lines 224-225): `None`. -/
def hostTlsNonHost : Option TlsAccessor := none

/-- The `HOST_STATICS` slot in a non-host image before `Context::initialize`
(src/lib.rs lines 230-231): `None`. -/
def hostStaticsNonHost : Option StaticAccessor := none

/-- The `HOST_TLS` slot in a host image (src/lib.rs line 222):
`Some(host::tls)`. -/
def hostTlsHost : Option TlsAccessor := some tls

/-- The `HOST_STATICS` slot in a host image (src/lib.rs line 228):
`Some(host::statics)`. -/
def hostStaticsHost : Option StaticAccessor := some statics

/-- Panic message of `__get_tls` when the slot is empty (src/lib.rs line
236). -/
def tlsUninitPanic : String := "host thread local storage improperly initialized"

/-- Panic message of `__get_static` when the slot is empty (src/lib.rs line
243). -/
def staticUninitPanic : String := "host static storage improperly initialized"

/-- Model of `__get_tls` (src/lib.rs lines 234-238): `expect`-panic with a
descriptive message when the accessor slot is empty, otherwise call through
the installed function pointer. -/
def getTls (slot : Option TlsAccessor) (s : TlsState) (id : String)
    (init : InitResult) : Except String (Nat × Bool) × TlsState :=
  match slot with
  | none => (.error tlsUninitPanic, s)
  | some f => f s id init

/-- Model of `__get_static` (src/lib.rs lines 241-245). -/
def getStatic (slot : Option StaticAccessor) (s : StaticState) (id : String)
    (init : InitResult) : Except String (Nat × Bool) × StaticState :=
  match slot with
  | none => (.error staticUninitPanic, s)
  | some f => f s id init

/-- State of a one-shot cache: the `std::thread_local! { static VALUE }` of
`__thread_local_inner!` (per thread) or the `VALUE_ONCE`/`VALUE` pair of
`__lazy_static_inner!` (per process).  `cached a` means the address `a` was
stored by a completed first access; `failed` means the computation panicked
(for the `Once`-guarded static cache this poisons the `Once`). -/
inductive Cache where
  | vacant
  | cached (addr : Nat)
  | failed
deriving DecidableEq, Repr

/-- Model of an access through `LocalKey::with` in a host image
(src/lib.rs lines 40-51 and 247-257): the macro's `std::thread_local!`
`VALUE` caches the address returned by `__get_tls` on the thread's first
access; every later access on the same thread returns the cached address and
never consults the registry again.  Returns the result, the updated cache,
the updated registry state, and whether the declaration's initializer was
invoked and completed. -/
def localKeyWith (cache : Cache) (s : TlsState) (id : String)
    (init : InitResult) : Except String Nat × Cache × TlsState × Bool :=
  match cache with
  | .cached a => (.ok a, .cached a, s, false)
  | .failed =>
    -- A panicking `std::thread_local!` initializer leaves the slot vacant,
    -- so the access is retried; model the retry directly.
    match tls s id init with
    | (.ok (a, inv), s') => (.ok a, .cached a, s', inv)
    | (.error e, s') => (.error e, .failed, s', false)
  | .vacant =>
    match tls s id init with
    | (.ok (a, inv), s') => (.ok a, .cached a, s', inv)
    | (.error e, s') => (.error e, .vacant, s', false)

/-- Model of a dereference of a `lazy_static!` value in a host image
(src/lib.rs lines 84-108): `VALUE_ONCE.call_once` stores the address returned
by `__get_static` on the first dereference anywhere in the image; every later
dereference returns the cached address.  A panic inside `call_once` poisons
the `Once`, and later dereferences panic at `call_once`. -/
def lazyStaticDeref (cache : Cache) (s : StaticState) (id : String)
    (init : InitResult) : Except String Nat × Cache × StaticState × Bool :=
  match cache with
  | .cached a => (.ok a, .cached a, s, false)
  | .failed => (.error "Once instance has previously been poisoned", .failed, s, false)
  | .vacant =>
    match statics s id init with
    | (.ok (a, inv), s') => (.ok a, .cached a, s', inv)
    | (.error e, s') => (.error e, .failed, s', false)

/-! ## Helper lemmas -/

/-- Looking up the key just inserted finds the inserted box. -/
theorem lookupBox_insert_self (m : RegMap) (id : String) (b : Box) :
    lookupBox ((id, b) :: m) id = some b := by
  simp [lookupBox]

/-- Inserting a different key does not change a lookup. -/
theorem lookupBox_insert_ne (m : RegMap) (id id' : String) (b : Box)
    (h : id' ≠ id) : lookupBox ((id, b) :: m) id' = lookupBox m id' := by
  simp only [lookupBox]
  rw [if_neg (show ¬id = id' from fun h' => h h'.symm)]

/-- A `tls` call never removes or replaces an existing entry. -/
theorem tls_preserves_entry (s : TlsState) (id id' : String)
    (init : InitResult) (b : Box) (h : lookupBox s.map id = some b) :
    lookupBox (tls s id' init).2.map id = some b := by
  unfold tls
  split
  · exact h
  · split
    · exact h
    · split
      · exact h
      · rename_i hnone _ _
        by_cases hid : id = id'
        · rw [hid] at h; rw [h] at hnone; exact absurd hnone (by simp)
        · simpa [lookupBox_insert_ne _ _ _ _ hid] using h

/-- A `tls` call never changes the borrow flag. -/
theorem tls_borrowed (s : TlsState) (id : String) (init : InitResult) :
    (tls s id init).2.borrowed = s.borrowed := by
  unfold tls
  split
  · rfl
  · split
    · rfl
    · split <;> rfl

/-- A sequence of `tls` calls never removes or replaces an existing entry. -/
theorem runTls_preserves_entry (cs : List (String × InitResult))
    (s : TlsState) (id : String) (b : Box) (h : lookupBox s.map id = some b) :
    lookupBox (runTls s cs).map id = some b := by
  induction cs generalizing s with
  | nil => exact h
  | cons c cs ih =>
    exact ih _ (tls_preserves_entry s id c.1 c.2 b h)

/-- A sequence of `tls` calls never changes the borrow flag. -/
theorem runTls_borrowed (cs : List (String × InitResult)) (s : TlsState) :
    (runTls s cs).borrowed = s.borrowed := by
  induction cs generalizing s with
  | nil => rfl
  | cons c cs ih =>
    rw [runTls, ih, tls_borrowed]

/-- A `statics` call never removes or replaces an existing entry (poisoning
leaves the map contents untouched). -/
theorem statics_preserves_entry (s : StaticState) (id id' : String)
    (init : InitResult) (b : Box) (h : lookupBox s.map id = some b) :
    lookupBox (statics s id' init).2.map id = some b := by
  unfold statics
  split
  · exact h
  · split
    · exact h
    · split
      · exact h
      · rename_i hnone _ _
        by_cases hid : id = id'
        · rw [hid] at h; rw [h] at hnone; exact absurd hnone (by simp)
        · simpa [lookupBox_insert_ne _ _ _ _ hid] using h

/-- A sequence of `statics` calls never removes or replaces an existing
entry. -/
theorem runStatics_preserves_entry (cs : List (String × InitResult))
    (s : StaticState) (id : String) (b : Box)
    (h : lookupBox s.map id = some b) :
    lookupBox (runStatics s cs).map id = some b := by
  induction cs generalizing s with
  | nil => exact h
  | cons c cs ih =>
    exact ih _ (statics_preserves_entry s id c.1 c.2 b h)

/-- A successful `tls` call leaves an entry for the identifier at the
returned address, and the resulting state is unborrowed. -/
theorem tls_ok_lookup (s : TlsState) (id : String) (init : InitResult)
    (a : Nat) (inv : Bool) (s' : TlsState)
    (h : tls s id init = (.ok (a, inv), s')) :
    (∃ b : Box, lookupBox s'.map id = some b ∧ b.addr = a) ∧
      s'.borrowed = false := by
  unfold tls at h
  split at h
  · exact absurd h (by simp)
  · rename_i hb
    split at h
    · rename_i b hsome
      rw [Prod.mk.injEq, Except.ok.injEq, Prod.mk.injEq] at h
      obtain ⟨⟨ha, _⟩, h2⟩ := h
      subst h2
      exact ⟨⟨b, hsome, ha⟩, by simpa using hb⟩
    · split at h
      · exact absurd h (by simp)
      · rename_i v
        rw [Prod.mk.injEq, Except.ok.injEq, Prod.mk.injEq] at h
        obtain ⟨⟨ha, _⟩, h2⟩ := h
        subst h2
        exact ⟨⟨⟨s.nextAddr, v⟩, lookupBox_insert_self .., ha⟩, by simpa using hb⟩

/-- A successful `statics` call leaves an entry for the identifier at the
returned address. -/
theorem statics_ok_lookup (s : StaticState) (id : String) (init : InitResult)
    (a : Nat) (inv : Bool) (s' : StaticState)
    (h : statics s id init = (.ok (a, inv), s')) :
    ∃ b : Box, lookupBox s'.map id = some b ∧ b.addr = a := by
  unfold statics at h
  split at h
  · exact absurd h (by simp)
  · split at h
    · rename_i b hsome
      rw [Prod.mk.injEq, Except.ok.injEq, Prod.mk.injEq] at h
      obtain ⟨⟨ha, _⟩, h2⟩ := h
      subst h2
      exact ⟨b, hsome, ha⟩
    · split at h
      · exact absurd h (by simp)
      · rename_i v
        rw [Prod.mk.injEq, Except.ok.injEq, Prod.mk.injEq] at h
        obtain ⟨⟨ha, _⟩, h2⟩ := h
        subst h2
        exact ⟨⟨s.nextAddr, v⟩, lookupBox_insert_self .., ha⟩

/-- A `tls` call on an unborrowed state whose map already holds the
identifier returns the stored address without invoking the initializer and
leaves the state unchanged. -/
theorem tls_hit (s : TlsState) (id : String) (init : InitResult) (b : Box)
    (hb : s.borrowed = false) (h : lookupBox s.map id = some b) :
    tls s id init = (.ok (b.addr, false), s) := by
  unfold tls
  rw [hb, h]
  rfl

/-- A `statics` call on an unpoisoned state whose map already holds the
identifier returns the stored address without invoking the initializer and
leaves the state unchanged. -/
theorem statics_hit (s : StaticState) (id : String) (init : InitResult)
    (b : Box) (hp : s.poisoned = false) (h : lookupBox s.map id = some b) :
    statics s id init = (.ok (b.addr, false), s) := by
  unfold statics
  rw [hp, h]
  rfl

/-- A `tls` call on an unborrowed state whose map lacks the identifier, with a
successfully completing initializer, inserts a fresh box and returns its
address. -/
theorem tls_miss_ok (s : TlsState) (id : String) (v : Nat)
    (hb : s.borrowed = false) (h : lookupBox s.map id = none) :
    tls s id (.ok v) =
      (.ok (s.nextAddr, true),
       { s with map := (id, ⟨s.nextAddr, v⟩) :: s.map,
                nextAddr := s.nextAddr + 1 }) := by
  unfold tls
  rw [hb, h]
  rfl

/-- A `tls` call on an unborrowed state whose map lacks the identifier, with a
panicking initializer, propagates the panic and leaves the state unchanged. -/
theorem tls_miss_fail (s : TlsState) (id msg : String)
    (hb : s.borrowed = false) (h : lookupBox s.map id = none) :
    tls s id (.fail msg) = (.error msg, s) := by
  unfold tls
  rw [hb, h]
  rfl

/-- A `statics` call on an unpoisoned state whose map lacks the identifier,
with a successfully completing initializer, inserts a fresh box and returns
its address. -/
theorem statics_miss_ok (s : StaticState) (id : String) (v : Nat)
    (hp : s.poisoned = false) (h : lookupBox s.map id = none) :
    statics s id (.ok v) =
      (.ok (s.nextAddr, true),
       { s with map := (id, ⟨s.nextAddr, v⟩) :: s.map,
                nextAddr := s.nextAddr + 1 }) := by
  unfold statics
  rw [hp, h]
  rfl

/-- A `statics` call on an unpoisoned state whose map lacks the identifier,
with a panicking initializer, propagates the panic, leaves the map unchanged,
and poisons the mutex. -/
theorem statics_miss_fail (s : StaticState) (id msg : String)
    (hp : s.poisoned = false) (h : lookupBox s.map id = none) :
    statics s id (.fail msg) = (.error msg, { s with poisoned := true }) := by
  unfold statics
  rw [hp, h]
  rfl

/-- A `statics` call on a poisoned state panics at `.lock().unwrap()` without
touching the map or running the initializer. -/
theorem statics_poisoned (s : StaticState) (id : String) (init : InitResult)
    (hp : s.poisoned = true) :
    statics s id init = (.error poisonPanic, s) := by
  unfold statics
  rw [hp]
  rfl

/-- On a state already holding the identifier, every call of a replicated
batch of `statics` calls returns the stored address without invoking the
initializer, and the state is unchanged. -/
theorem runStaticsTrace_replicate_hit (k : Nat) (s : StaticState)
    (id : String) (init : InitResult) (b : Box) (hp : s.poisoned = false)
    (h : lookupBox s.map id = some b) :
    runStaticsTrace s (List.replicate k (id, init)) =
      (List.replicate k (.ok (b.addr, false)), s) := by
  induction k with
  | zero => rfl
  | succ k ih =>
    rw [List.replicate_succ, runStaticsTrace, statics_hit s id init b hp h,
        List.replicate_succ, ih]

/-! ## Claim C1 -/

/-- C1, counterexample to the claim as stated.  The claim quantifies over
*any* sequence of calls; here, after the first `statics` call for `"a"`
completes successfully at address 0, a call for `"b"` whose initializer
panics poisons the static mutex, and the next call for `"a"` then panics at
`.lock().unwrap()` instead of returning address 0 — so it is not the case
that every later call for `"a"` returns the same address as the first. -/
theorem c1_counterexample :
    statics StaticState.empty "a" (.ok 7) =
      (.ok (0, true), ⟨[("a", ⟨0, 7⟩)], 1, false⟩) ∧
    statics ⟨[("a", ⟨0, 7⟩)], 1, false⟩ "b" (.fail "boom") =
      (.error "boom", ⟨[("a", ⟨0, 7⟩)], 1, true⟩) ∧
    statics ⟨[("a", ⟨0, 7⟩)], 1, true⟩ "a" (.ok 7) =
      (.error poisonPanic, ⟨[("a", ⟨0, 7⟩)], 1, true⟩) :=
  ⟨rfl, rfl, rfl⟩

/-- C1 (amended): after a first get-or-init call for an identifier completes
successfully, no later call for that identifier ever re-invokes the
initializer, and it returns the same address as the first call — for the
thread-local accessor `tls` unconditionally over any interleaved sequence of
calls, and for the process-wide accessor `statics` over any interleaved
sequence of calls that leaves the static mutex unpoisoned (i.e. no
intervening initializer panicked; after a poisoning panic a later call itself
panics, though it still does not re-invoke the initializer). -/
theorem c1_init_at_most_once_and_address_stable :
    (∀ (s : TlsState) (id : String) (init init' : InitResult)
       (cs : List (String × InitResult)) (a : Nat) (inv : Bool)
       (s₁ : TlsState),
       tls s id init = (.ok (a, inv), s₁) →
       tls (runTls s₁ cs) id init' = (.ok (a, false), runTls s₁ cs)) ∧
    (∀ (s : StaticState) (id : String) (init init' : InitResult)
       (cs : List (String × InitResult)) (a : Nat) (inv : Bool)
       (s₁ : StaticState),
       statics s id init = (.ok (a, inv), s₁) →
       (runStatics s₁ cs).poisoned = false →
       statics (runStatics s₁ cs) id init' =
         (.ok (a, false), runStatics s₁ cs)) := by
  constructor
  · intro s id init init' cs a inv s₁ h
    obtain ⟨⟨b, hlk, hba⟩, hbor⟩ := tls_ok_lookup s id init a inv s₁ h
    have hlk2 := runTls_preserves_entry cs s₁ id b hlk
    have hbor2 : (runTls s₁ cs).borrowed = false := by
      rw [runTls_borrowed, hbor]
    rw [← hba]
    exact tls_hit _ id init' b hbor2 hlk2
  · intro s id init init' cs a inv s₁ h hp
    obtain ⟨b, hlk, hba⟩ := statics_ok_lookup s id init a inv s₁ h
    have hlk2 := runStatics_preserves_entry cs s₁ id b hlk
    rw [← hba]
    exact statics_hit _ id init' b hp hlk2

/-- C1, witness: both halves of the amended theorem instantiated on concrete
registries — a successful first call for `"k"`, one intervening call for
`"j"`, then a repeat call for `"k"` that returns the original address 0
without invoking its (different) initializer. -/
theorem c1_init_at_most_once_and_address_stable_witness :
    tls (runTls ⟨[("k", ⟨0, 7⟩)], 1, false⟩ [("j", .ok 1)]) "k" (.ok 9) =
      (.ok (0, false), runTls ⟨[("k", ⟨0, 7⟩)], 1, false⟩ [("j", .ok 1)]) ∧
    statics (runStatics ⟨[("k", ⟨0, 7⟩)], 1, false⟩ [("j", .ok 1)]) "k"
        (.ok 9) =
      (.ok (0, false),
       runStatics ⟨[("k", ⟨0, 7⟩)], 1, false⟩ [("j", .ok 1)]) :=
  ⟨c1_init_at_most_once_and_address_stable.1 TlsState.empty "k" (.ok 7)
     (.ok 9) [("j", .ok 1)] 0 true ⟨[("k", ⟨0, 7⟩)], 1, false⟩ rfl,
   c1_init_at_most_once_and_address_stable.2 StaticState.empty "k" (.ok 7)
     (.ok 9) [("j", .ok 1)] 0 true ⟨[("k", ⟨0, 7⟩)], 1, false⟩ rfl rfl⟩

/-! ## Claim C2 -/

/-- C2, counterexample to the claim as stated.  On the static registry, a
first call for `"k"` whose initializer panics propagates the panic and leaves
`"k"` un-inserted (the map is still empty) — but it poisons the mutex, so the
subsequent call for `"k"`, whose initializer would now succeed with value 5,
panics at `.lock().unwrap()` instead of running that initializer again: the
result is an error and the map stays empty, whereas re-running the
initializer would have produced `.ok` and inserted `"k"`. -/
theorem c2_counterexample :
    statics StaticState.empty "k" (.fail "boom") =
      (.error "boom", ⟨[], 0, true⟩) ∧
    statics ⟨[], 0, true⟩ "k" (.ok 5) =
      (.error poisonPanic, ⟨[], 0, true⟩) :=
  ⟨rfl, rfl⟩

/-- C2 (amended): if the initializer panics during a get-or-init call, the
panic propagates synchronously to the caller and the identifier remains
un-inserted with the map unchanged, in both registries.  For the thread-local
registry a subsequent call for the same identifier runs the initializer again
from scratch (a then-successful initializer inserts a fresh box).  For the
static registry, however, the panic is raised while the mutex guard is held
and poisons the mutex, so every subsequent call — for this or any other
identifier — panics at `.lock().unwrap()` without running any initializer. -/
theorem c2_init_panic_propagates_and_leaves_unset :
    (∀ (s : TlsState) (id msg : String) (v : Nat),
       s.borrowed = false → lookupBox s.map id = none →
       tls s id (.fail msg) = (.error msg, s) ∧
       tls s id (.ok v) =
         (.ok (s.nextAddr, true),
          { s with map := (id, ⟨s.nextAddr, v⟩) :: s.map,
                   nextAddr := s.nextAddr + 1 })) ∧
    (∀ (s : StaticState) (id msg : String),
       s.poisoned = false → lookupBox s.map id = none →
       statics s id (.fail msg) = (.error msg, { s with poisoned := true }) ∧
       ∀ (id' : String) (init' : InitResult),
         statics { s with poisoned := true } id' init' =
           (.error poisonPanic, { s with poisoned := true })) := by
  constructor
  · intro s id msg v hb hn
    exact ⟨tls_miss_fail s id msg hb hn, tls_miss_ok s id v hb hn⟩
  · intro s id msg hp hn
    refine ⟨statics_miss_fail s id msg hp hn, fun id' init' => ?_⟩
    exact statics_poisoned _ id' init' rfl

/-- C2, witness: both halves instantiated concretely — on the thread-local
registry a panicking initializer for `"k"` leaves the empty map unchanged and
a retry with a successful initializer inserts at address 0; on the static
registry the panic poisons the mutex and the retry panics. -/
theorem c2_init_panic_propagates_and_leaves_unset_witness :
    (tls TlsState.empty "k" (.fail "boom") = (.error "boom", TlsState.empty) ∧
     tls TlsState.empty "k" (.ok 5) =
       (.ok (0, true),
        { TlsState.empty with map := [("k", ⟨0, 5⟩)], nextAddr := 1 })) ∧
    (statics StaticState.empty "k" (.fail "boom") =
       (.error "boom", { StaticState.empty with poisoned := true }) ∧
     ∀ (id' : String) (init' : InitResult),
       statics { StaticState.empty with poisoned := true } id' init' =
         (.error poisonPanic, { StaticState.empty with poisoned := true })) :=
  ⟨c2_init_panic_propagates_and_leaves_unset.1 TlsState.empty "k" "boom" 5
     rfl rfl,
   c2_init_panic_propagates_and_leaves_unset.2 StaticState.empty "k" "boom"
     rfl rfl⟩

/-! ## Claim C3 -/

/-- C3, evaluation at the failing input (code bug).  A thread accesses the
thread-local `"X"` once (initializer runs, box stored at address 0 and the
macro's `std::thread_local! VALUE` caches that address), then `reset()` clears
both registries, then the same thread accesses `"X"` again: the access
returns the cached address 0 with the initializer NOT invoked, while the
registry map is empty — the cached address is dangling, contradicting both
the claim and `Context::reset`'s own documentation ("returns the state to a
point as if no values have yet been accessed on the current thread").  The
`lazy_static` dereference path behaves the same by way of its process-wide
`VALUE_ONCE` cache. -/
theorem c3_reset_does_not_reach_macro_caches :
    localKeyWith .vacant TlsState.empty "X" (.ok 7) =
      (.ok 0, .cached 0, ⟨[("X", ⟨0, 7⟩)], 1, false⟩, true) ∧
    reset ⟨[("X", ⟨0, 7⟩)], 1, false⟩ ⟨[("Y", ⟨0, 8⟩)], 1, false⟩ =
      (.ok (), ⟨[], 1, false⟩, ⟨[], 1, false⟩) ∧
    localKeyWith (.cached 0) ⟨[], 1, false⟩ "X" (.ok 7) =
      (.ok 0, .cached 0, ⟨[], 1, false⟩, false) ∧
    lazyStaticDeref (.cached 0) ⟨[], 1, false⟩ "Y" (.ok 8) =
      (.ok 0, .cached 0, ⟨[], 1, false⟩, false) :=
  ⟨rfl, rfl, rfl, rfl⟩

/-! ## Claim C4 -/

/-- C4, counterexample to the claim as stated.  The identifier is the bare
concatenation of name, type description and module path, which is not
injective on triples: the distinct declarations `static AB: u8` and
`static A: Bu8` in the same module `m` produce the identical identifier
string `"ABu8m"`. -/
theorem c4_counterexample :
    tlsIdentifier "AB" "u8" "m" = tlsIdentifier "A" "Bu8" "m" ∧
    staticIdentifier "AB" "u8" "m" = staticIdentifier "A" "Bu8" "m" ∧
    (("AB", "u8", "m") : String × String × String) ≠ ("A", "Bu8", "m") := by
  refine ⟨by decide, by decide, by decide⟩

/-- String lengths transfer to the underlying character list. -/
theorem string_data_length (s : String) : s.data.length = s.length := by
  cases s
  rw [String.length_mk]

/-- C4 (amended): the identifier construction is deterministic — the same
(name, type description, module path) triple yields the identical string in
any image — but it is injective only up to concatenation ambiguity: when the
corresponding components have equal lengths, equal identifiers force equal
triples, while in general distinct triples may collide (see the
counterexample), which is why the spec (§4.1) makes collision-freedom a
precondition on the declaration tooling rather than a property of the
construction. -/
theorem c4_identifier_deterministic_and_injective_on_lengths
    (n t m n' t' m' : String)
    (hn : n.length = n'.length) (ht : t.length = t'.length) :
    (tlsIdentifier n t m = tlsIdentifier n' t' m' ↔
       n = n' ∧ t = t' ∧ m = m') ∧
    (staticIdentifier n t m = staticIdentifier n' t' m' ↔
       n = n' ∧ t = t' ∧ m = m') := by
  have key : tlsIdentifier n t m = tlsIdentifier n' t' m' ↔
      n = n' ∧ t = t' ∧ m = m' := by
    constructor
    · intro h
      unfold tlsIdentifier at h
      rw [String.ext_iff, String.data_append, String.data_append,
          String.data_append, String.data_append] at h
      have hlen : (n.data ++ t.data).length = (n'.data ++ t'.data).length := by
        rw [List.length_append, List.length_append, string_data_length,
            string_data_length, string_data_length, string_data_length,
            hn, ht]
      obtain ⟨hnt, hm⟩ := List.append_inj h hlen
      have hlen2 : n.data.length = n'.data.length := by
        rw [string_data_length, string_data_length, hn]
      obtain ⟨hd1, hd2⟩ := List.append_inj hnt hlen2
      exact ⟨String.ext hd1, String.ext hd2, String.ext hm⟩
    · rintro ⟨rfl, rfl, rfl⟩
      rfl
  exact ⟨key, key⟩

/-- C4, witness: the amended theorem instantiated on concrete components of
equal lengths, where equal identifiers do force equal triples. -/
theorem c4_identifier_deterministic_and_injective_on_lengths_witness :
    (tlsIdentifier "AA" "u8" "m1" = tlsIdentifier "AB" "u8" "m1" ↔
       "AA" = "AB" ∧ "u8" = "u8" ∧ "m1" = "m1") ∧
    (staticIdentifier "AA" "u8" "m1" = staticIdentifier "AB" "u8" "m1" ↔
       "AA" = "AB" ∧ "u8" = "u8" ∧ "m1" = "m1") :=
  c4_identifier_deterministic_and_injective_on_lengths
    "AA" "u8" "m1" "AB" "u8" "m1" rfl rfl

/-! ## Claim C5 -/

/-- C5: both declaration paths build the identifier by the same deterministic
scheme — the declaration's name, then its value-type description, then its
declaring module path, concatenated in that order — and registry lookups
compare identifiers purely by string content (string equality of the key). -/
theorem c5_identifier_scheme_concat_and_string_compared :
    (∀ n t m : String, tlsIdentifier n t m = n ++ t ++ m) ∧
    (∀ n t m : String, staticIdentifier n t m = n ++ t ++ m) ∧
    (∀ n t m : String, tlsIdentifier n t m = staticIdentifier n t m) ∧
    (∀ (id id' : String) (b : Box) (rest : RegMap),
       lookupBox ((id, b) :: rest) id' =
         if id = id' then some b else lookupBox rest id') :=
  ⟨fun _ _ _ => rfl, fun _ _ _ => rfl, fun _ _ _ => rfl,
   fun _ _ _ _ => rfl⟩

/-! ## Claim C6 -/

/-- C6: in an image where the Context has not been installed (the accessor
slots are `None`, the non-host default), every access through `__get_tls` or
`__get_static` panics with a descriptive message naming the uninitialized
storage, and the registry state is untouched. -/
theorem c6_access_before_install_fails_fast :
    (∀ (s : TlsState) (id : String) (init : InitResult),
       getTls hostTlsNonHost s id init =
         (.error "host thread local storage improperly initialized", s)) ∧
    (∀ (s : StaticState) (id : String) (init : InitResult),
       getStatic hostStaticsNonHost s id init =
         (.error "host static storage improperly initialized", s)) :=
  ⟨fun _ _ _ => rfl, fun _ _ _ => rfl⟩

/-! ## Claim C7 -/

/-- C7: on any ordinarily-reachable state (the `RefCell` not currently
borrowed, the static mutex not poisoned — successful initializations never
set either flag), `reset()` succeeds and leaves both registries completely
empty, whatever entries they held. -/
theorem c7_reset_empties_both_registries (ts : TlsState) (ss : StaticState)
    (hb : ts.borrowed = false) (hp : ss.poisoned = false) :
    reset ts ss = (.ok (), { ts with map := [] }, { ss with map := [] }) := by
  unfold reset
  rw [hb, hp]
  rfl

/-- C7, witness: resetting registries holding two thread-local entries and
one static entry leaves both maps empty. -/
theorem c7_reset_empties_both_registries_witness :
    reset ⟨[("a", ⟨0, 1⟩), ("b", ⟨1, 2⟩)], 2, false⟩
        ⟨[("c", ⟨0, 3⟩)], 1, false⟩ =
      (.ok (), ⟨[], 2, false⟩, ⟨[], 1, false⟩) :=
  c7_reset_empties_both_registries _ _ rfl rfl

/-! ## Claim C8 -/

/-- C8: distinct identifiers are independent — a get-or-init call for `k1`
(whichever branch it takes, including the one inserting `k1`) leaves the
registry entry for any `k2 ≠ k1`, both its stored value and its address,
unchanged, in the thread-local and in the static registry. -/
theorem c8_distinct_identifiers_independent
    (s : TlsState) (ss : StaticState) (k1 k2 : String) (i1 i2 : InitResult)
    (h : k1 ≠ k2) :
    lookupBox (tls s k1 i1).2.map k2 = lookupBox s.map k2 ∧
    lookupBox (statics ss k1 i2).2.map k2 = lookupBox ss.map k2 := by
  constructor
  · unfold tls
    split
    · rfl
    · split
      · rfl
      · split
        · rfl
        · exact lookupBox_insert_ne _ _ _ _ (Ne.symm h)
  · unfold statics
    split
    · rfl
    · split
      · rfl
      · split
        · rfl
        · exact lookupBox_insert_ne _ _ _ _ (Ne.symm h)

/-- C8, witness: a first (inserting) call for `"a"` on both empty registries
leaves the (absent) entry for `"b"` unchanged. -/
theorem c8_distinct_identifiers_independent_witness :
    lookupBox (tls TlsState.empty "a" (.ok 1)).2.map "b" =
      lookupBox TlsState.empty.map "b" ∧
    lookupBox (statics StaticState.empty "a" (.ok 1)).2.map "b" =
      lookupBox StaticState.empty.map "b" :=
  c8_distinct_identifiers_independent TlsState.empty StaticState.empty
    "a" "b" (.ok 1) (.ok 1) (by decide)

/-! ## Claim C9 -/

/-- Unfolding equation for a batch of `statics` calls. -/
theorem runStaticsTrace_cons (s : StaticState) (id : String)
    (init : InitResult) (cs : List (String × InitResult)) :
    runStaticsTrace s ((id, init) :: cs) =
      ((statics s id init).1 ::
         (runStaticsTrace (statics s id init).2 cs).1,
       (runStaticsTrace (statics s id init).2 cs).2) := rfl

/-- C9: `host::statics` holds the process-wide mutex for its entire body, so
N threads concurrently performing the first access to the same static
descriptor execute as N atomic calls in mutex-acquisition order; from any
unpoisoned state in which the identifier is absent, the first of the N calls
invokes the initializer (and no other call does — exactly one result carries
the invoked flag), and all N calls return the same address, that of the
single box stored process-wide. -/
theorem c9_concurrent_first_access_runs_init_once
    (s : StaticState) (id : String) (v : Nat) (n : Nat)
    (hp : s.poisoned = false) (habs : lookupBox s.map id = none)
    (hn : 1 ≤ n) :
    runStaticsTrace s (List.replicate n (id, .ok v)) =
      (.ok (s.nextAddr, true) ::
         List.replicate (n - 1) (.ok (s.nextAddr, false)),
       { s with map := (id, ⟨s.nextAddr, v⟩) :: s.map,
                nextAddr := s.nextAddr + 1 }) := by
  obtain ⟨k, rfl⟩ : ∃ k, n = k + 1 :=
    ⟨n - 1, (Nat.succ_pred_eq_of_pos hn).symm⟩
  rw [List.replicate_succ, runStaticsTrace_cons,
      statics_miss_ok s id v hp habs]
  rw [runStaticsTrace_replicate_hit k
        { s with map := (id, ⟨s.nextAddr, v⟩) :: s.map,
                 nextAddr := s.nextAddr + 1 }
        id (.ok v) ⟨s.nextAddr, v⟩ hp (lookupBox_insert_self s.map id _)]
  simp

/-- C9, witness: three calls for the static descriptor `"s"` from the empty
registry — the first invokes the initializer and stores at address 0, the
other two return address 0 without invoking it. -/
theorem c9_concurrent_first_access_runs_init_once_witness :
    runStaticsTrace StaticState.empty (List.replicate 3 ("s", .ok 7)) =
      (.ok (0, true) :: List.replicate 2 (.ok (0, false)),
       ⟨[("s", ⟨0, 7⟩)], 1, false⟩) :=
  c9_concurrent_first_access_runs_init_once StaticState.empty "s" 7 3
    rfl rfl (by decide)

/-! ## Claim C10 -/

/-- C10: while an initializer is executing inside `host::tls`, the
`RefCell` of `PLUGIN_TLS` is mutably borrowed; a nested call into `tls` on
the same thread — for the same or any other identifier — panics at
`borrow_mut` with the borrow error, leaving the registry state entirely
untouched (it neither observes nor mutates the map); and when that panic (or
any panic) propagates out of the outer call's initializer, the outer
identifier remains un-inserted. -/
theorem c10_reentrant_tls_access_panics_and_outer_unset :
    (∀ (s : TlsState) (id : String) (init : InitResult),
       s.borrowed = true →
       tls s id init = (.error borrowPanic, s)) ∧
    (∀ (s : TlsState) (id msg : String),
       s.borrowed = false → lookupBox s.map id = none →
       tls s id (.fail msg) = (.error msg, s) ∧
       lookupBox (tls s id (.fail msg)).2.map id = none) := by
  constructor
  · intro s id init h
    unfold tls
    rw [h]
    rfl
  · intro s id msg hb hn
    refine ⟨tls_miss_fail s id msg hb hn, ?_⟩
    rw [tls_miss_fail s id msg hb hn]
    exact hn

/-- C10, witness: a nested call on a borrowed registry panics with the borrow
error without touching the state, and an outer call whose initializer
panicked with that propagated error leaves its identifier un-inserted. -/
theorem c10_reentrant_tls_access_panics_and_outer_unset_witness :
    tls ⟨[], 0, true⟩ "a" (.ok 1) = (.error borrowPanic, ⟨[], 0, true⟩) ∧
    (tls TlsState.empty "a" (.fail borrowPanic) =
       (.error borrowPanic, TlsState.empty) ∧
     lookupBox (tls TlsState.empty "a" (.fail borrowPanic)).2.map "a" =
       none) :=
  ⟨c10_reentrant_tls_access_panics_and_outer_unset.1 ⟨[], 0, true⟩ "a"
     (.ok 1) rfl,
   c10_reentrant_tls_access_panics_and_outer_unset.2 TlsState.empty "a"
     borrowPanic rfl rfl⟩

end PluginTls
